import Mathlib

/-!
Shallow embedding of the winch x64 assembler layer
(`winch/codegen/src/isa/x64/asm.rs`) together with the small parts of its
operand/address model it depends on.  Emission methods are translated as
state-passing functions on an `Assembler` record whose machine buffer is the
append-only list of emitted instructions; Rust panics (`panic!`,
`unreachable!`, `assert!`, `.expect`, `.unwrap`) become `Except.error`.
-/

namespace Winch

/-- Modelled from the spec: the register class tag of `isa::reg::Reg`
(general-purpose integer vs. floating/vector), whose source file is not
under `src/`. -/
inductive RegClass where
  | int
  | float
deriving DecidableEq, Repr

/-- Modelled from the spec: `isa::reg::Reg` identifies a physical machine
register plus its class; immutable value passed by value into every
assembler method. -/
structure Reg where
  enc : Nat
  cls : RegClass
deriving DecidableEq, Repr

/-- Modelled from the spec: `Reg::is_float`, the float-class predicate used
by the fail-fast assertions. -/
def Reg.is_float (r : Reg) : Bool := r.cls = RegClass.float

/-- Modelled from the spec: `masm::OperandSize` enumerates 32-bit, 64-bit
and the wider 128-bit vector width (`S32`, `S64`, `S128` are the variants
`asm.rs` matches on). -/
inductive OperandSize where
  | S32
  | S64
  | S128
deriving DecidableEq, Repr

/-- Modelled from the spec: `masm::DivKind`, signed vs. unsigned division
tag. -/
inductive DivKind where
  | Signed
  | Unsigned
deriving DecidableEq, Repr

/-- Modelled from the spec: `masm::RemKind`, signed vs. unsigned remainder
tag. -/
inductive RemKind where
  | Signed
  | Unsigned
deriving DecidableEq, Repr

/-- Modelled from the spec: `masm::IntCmpKind`, the ten abstract integer
comparison kinds. -/
inductive IntCmpKind where
  | Eq
  | Ne
  | LtS
  | LtU
  | GtS
  | GtU
  | LeS
  | LeU
  | GeS
  | GeU
deriving DecidableEq, Repr, Fintype

/-- Modelled from the spec: `masm::ShiftKind`, the five abstract shift and
rotate kinds. -/
inductive ShiftKind where
  | Shl
  | ShrS
  | ShrU
  | Rotl
  | Rotr
deriving DecidableEq, Repr

namespace Cranelift

/-- Modelled from the spec: the cranelift x64 condition codes (`args::CC`)
that the abstract kinds map onto. -/
inductive CC where
  | O
  | NO
  | B
  | NB
  | Z
  | NZ
  | BE
  | NBE
  | S
  | NS
  | P
  | NP
  | L
  | NL
  | LE
  | NLE
deriving DecidableEq, Repr, Fintype

/-- Modelled from the spec: the cranelift trap reason codes used by the
division guard sequences. -/
inductive TrapCode where
  | IntegerOverflow
  | IntegerDivisionByZero
  | UnreachableCodeReached
deriving DecidableEq, Repr

/-- Modelled from the spec: the cranelift x64 operand sizes
(`args::OperandSize`). -/
inductive ArgsOperandSize where
  | Size8
  | Size16
  | Size32
  | Size64
deriving DecidableEq, Repr

/-- Modelled from the spec: cranelift's `DivSignedness`. -/
inductive DivSignedness where
  | Signed
  | Unsigned
deriving DecidableEq, Repr

/-- Modelled from the spec: cranelift's `CmpOpcode` (compare vs. flag-only
test). -/
inductive CmpOpcode where
  | Cmp
  | Test
deriving DecidableEq, Repr

/-- Modelled from the spec: the ALU opcodes `asm.rs` selects
(`args::AluRmiROpcode`). -/
inductive AluRmiROpcode where
  | Add
  | Sub
  | And
  | Or
  | Xor
  | Mul
deriving DecidableEq, Repr

/-- Modelled from the spec: cranelift's x64 shift kinds. -/
inductive CraneliftShiftKind where
  | ShiftLeft
  | ShiftRightArithmetic
  | ShiftRightLogical
  | RotateLeft
  | RotateRight
deriving DecidableEq, Repr

/-- Modelled from the spec: cranelift's zero/sign extension modes; `LQ` is
32-to-64-bit. -/
inductive ExtMode where
  | BL
  | BQ
  | WL
  | WQ
  | LQ
deriving DecidableEq, Repr

/-- Modelled from the spec: the SSE opcodes selected by the float moves and
bitwise-float operations in `asm.rs`. -/
inductive SseOpcode where
  | Movaps
  | Movapd
  | Movdqa
  | Movss
  | Movsd
  | Movdqu
  | Andps
  | Andpd
  | Andnps
  | Andnpd
  | Orps
  | Orpd
  | Xorps
  | Xorpd
  | Movd
  | Movq
deriving DecidableEq, Repr

/-- Modelled from the spec: `Gpr`, a register checked to be of the
general-purpose class; `Gpr::new` returns `None` on a float-class
register. -/
structure Gpr where
  toReg : Reg
deriving DecidableEq, Repr

def Gpr.new (r : Reg) : Option Gpr :=
  if r.cls = RegClass.int then some ⟨r⟩ else none

/-- Modelled from the spec: `Xmm`, a register checked to be of the
float/vector class; `Xmm::new` returns `None` on an integer-class
register. -/
structure Xmm where
  toReg : Reg
deriving DecidableEq, Repr

def Xmm.new (r : Reg) : Option Xmm :=
  if r.cls = RegClass.float then some ⟨r⟩ else none

/-- Modelled from the spec: `WritableGpr`, built through
`WritableGpr::from_writable_reg`, which requires the integer class. -/
structure WritableGpr where
  toReg : Reg
deriving DecidableEq, Repr

def WritableGpr.from_writable_reg (r : Reg) : Option WritableGpr :=
  if r.cls = RegClass.int then some ⟨r⟩ else none

/-- Modelled from the spec: `WritableXmm`, built through
`WritableXmm::from_writable_reg`, which requires the float class. -/
structure WritableXmm where
  toReg : Reg
deriving DecidableEq, Repr

def WritableXmm.from_writable_reg (r : Reg) : Option WritableXmm :=
  if r.cls = RegClass.float then some ⟨r⟩ else none

end Cranelift

open Cranelift

/-- The `impl From<OperandSize> for args::OperandSize` in `asm.rs`: total on
`S32`/`S64`, panics on any other size. -/
def argsOperandSize_from : OperandSize → Except String ArgsOperandSize
  | OperandSize.S32 => Except.ok ArgsOperandSize.Size32
  | OperandSize.S64 => Except.ok ArgsOperandSize.Size64
  | _ => Except.error "Invalid operand size"

/-- The `impl From<DivKind> for DivSignedness` in `asm.rs`. -/
def divSignedness_from : DivKind → DivSignedness
  | DivKind.Signed => DivSignedness.Signed
  | DivKind.Unsigned => DivSignedness.Unsigned

/-- The `impl From<IntCmpKind> for CC` in `asm.rs`: the mapping from abstract
comparison kinds to native condition codes. -/
def cc_from_IntCmpKind : IntCmpKind → CC
  | IntCmpKind.Eq => CC.Z
  | IntCmpKind.Ne => CC.NZ
  | IntCmpKind.LtS => CC.L
  | IntCmpKind.LtU => CC.B
  | IntCmpKind.GtS => CC.NLE
  | IntCmpKind.GtU => CC.NBE
  | IntCmpKind.LeS => CC.LE
  | IntCmpKind.LeU => CC.BE
  | IntCmpKind.GeS => CC.NL
  | IntCmpKind.GeU => CC.NB

/-- The `impl From<ShiftKind> for CraneliftShiftKind` in `asm.rs`. -/
def craneliftShiftKind_from : ShiftKind → CraneliftShiftKind
  | ShiftKind.Shl => CraneliftShiftKind.ShiftLeft
  | ShiftKind.ShrS => CraneliftShiftKind.ShiftRightArithmetic
  | ShiftKind.ShrU => CraneliftShiftKind.ShiftRightLogical
  | ShiftKind.Rotl => CraneliftShiftKind.RotateLeft
  | ShiftKind.Rotr => CraneliftShiftKind.RotateRight

/-- Modelled from the spec: `Address` (in `isa/x64/address.rs`, not under
`src/`) is a tagged union of a base-register-relative offset and a
constant-pool handle. -/
inductive Address where
  | Offset (base : Reg) (offset : Int)
  | Const (handle : Nat)
deriving DecidableEq, Repr

/-- Modelled from the spec: `Address::constant`, wrapping a pool handle. -/
def Address.constant (handle : Nat) : Address := Address.Const handle

/-- Modelled from the spec: `Address::is_offset`, true exactly on the
base-plus-offset variant. -/
def Address.is_offset : Address → Bool
  | Address.Offset _ _ => true
  | Address.Const _ => false

/-- Modelled from the spec: cranelift's `SyntheticAmode`: a real
base-plus-displacement addressing mode or a constant-pool offset resolved
at finalization. -/
inductive SyntheticAmode where
  | real (base : Reg) (offset : Int)
  | ConstantOffset (constant : Nat)
deriving DecidableEq, Repr

/-- Modelled from the spec: cranelift's `RegMem` operand union: a register
or a memory operand given by a synthetic addressing mode. -/
inductive RegMem where
  | Reg (reg : Reg)
  | Mem (addr : SyntheticAmode)
deriving DecidableEq, Repr

/-- The `RegMem::reg`. -/
def RegMem.ofReg (r : Winch.Reg) : RegMem := RegMem.Reg r

/-- The `RegMem::mem`. -/
def RegMem.mem (a : SyntheticAmode) : RegMem := RegMem.Mem a

/-- Modelled from the spec: `GprMem::new` accepts a general-purpose
register or any memory operand, rejecting float-class registers. -/
inductive GprMem where
  | Reg (reg : Gpr)
  | Mem (addr : SyntheticAmode)
deriving DecidableEq, Repr

def GprMem.new : RegMem → Option GprMem
  | RegMem.Reg r =>
    if r.cls = RegClass.int then some (GprMem.Reg ⟨r⟩) else none
  | RegMem.Mem a => some (GprMem.Mem a)

/-- Modelled from the spec: cranelift's `RegMemImm` operand union. -/
inductive RegMemImm where
  | reg (r : Reg)
  | mem (addr : SyntheticAmode)
  | imm (simm32 : Nat)
deriving DecidableEq, Repr

/-- Modelled from the spec: `GprMemImm::new` accepts a general-purpose
register, a memory operand or an immediate, rejecting float-class
registers. -/
inductive GprMemImm where
  | Reg (reg : Gpr)
  | Mem (addr : SyntheticAmode)
  | Imm (simm32 : Nat)
deriving DecidableEq, Repr

def GprMemImm.new : RegMemImm → Option GprMemImm
  | RegMemImm.reg r =>
    if r.cls = RegClass.int then some (GprMemImm.Reg ⟨r⟩) else none
  | RegMemImm.mem a => some (GprMemImm.Mem a)
  | RegMemImm.imm n => some (GprMemImm.Imm n)

/-- Modelled from the spec: `XmmMem::new` accepts a float-class register or
any memory operand, rejecting general-purpose registers. -/
inductive XmmMem where
  | Reg (reg : Xmm)
  | Mem (addr : SyntheticAmode)
deriving DecidableEq, Repr

def XmmMem.new : RegMem → Option XmmMem
  | RegMem.Reg r =>
    if r.cls = RegClass.float then some (XmmMem.Reg ⟨r⟩) else none
  | RegMem.Mem a => some (XmmMem.Mem a)

/-- Modelled from the spec: cranelift's `Imm8Reg`, an 8-bit immediate or a
register shift count. -/
inductive Imm8Reg where
  | Reg (reg : Reg)
  | Imm8 (imm : Nat)
deriving DecidableEq, Repr

/-- Modelled from the spec: `Imm8Gpr::new` rejects a float-class register
in the register case. -/
inductive Imm8Gpr where
  | Reg (reg : Gpr)
  | Imm8 (imm : Nat)
deriving DecidableEq, Repr

def Imm8Gpr.new : Imm8Reg → Option Imm8Gpr
  | Imm8Reg.Reg r =>
    if r.cls = RegClass.int then some (Imm8Gpr.Reg ⟨r⟩) else none
  | Imm8Reg.Imm8 n => some (Imm8Gpr.Imm8 n)

/-- First index of an element in a list, `none` when absent: the content
lookup underlying the deduplicating keyed stores below. -/
def findIndex {α : Type} [DecidableEq α] : List α → α → Option Nat
  | [], _ => none
  | e :: rest, a =>
    if e = a then some 0 else (findIndex rest a).map (· + 1)

/-- Modelled from the spec: cranelift's `ConstantPool`: an ordered,
content-deduplicated store of byte blobs; `insert` returns the handle of an
existing identical entry or appends a new one. -/
structure ConstantPool where
  entries : List (List Nat)
deriving DecidableEq, Repr

def ConstantPool.new : ConstantPool := ⟨[]⟩

def ConstantPool.insert (p : ConstantPool) (data : List Nat) :
    ConstantPool × Nat :=
  match findIndex p.entries data with
  | some i => (p, i)
  | none => (⟨p.entries ++ [data]⟩, p.entries.length)

def ConstantPool.get (p : ConstantPool) (handle : Nat) : List Nat :=
  p.entries.getD handle []

/-- Modelled from the spec: cranelift's `VCodeConstants` keyed by pool
handle: `pool_uses` reports whether a pool-backed datum was already
inserted, and `insert` returns the existing index for an already-used pool
handle instead of allocating a new one. -/
structure VCodeConstants where
  poolKeys : List Nat
deriving DecidableEq, Repr

def VCodeConstants.pool_uses (c : VCodeConstants) (handle : Nat) : Bool :=
  (findIndex c.poolKeys handle).isSome

def VCodeConstants.insert (c : VCodeConstants) (handle : Nat) :
    VCodeConstants × Nat :=
  match findIndex c.poolKeys handle with
  | some i => (c, i)
  | none => (⟨c.poolKeys ++ [handle]⟩, c.poolKeys.length)

/-- The machine instructions `asm.rs` builds and appends, one constructor
per cranelift `Inst` variant it uses, restricted to the fields `asm.rs`
sets. -/
inductive Inst where
  | CmpRmiR (size : ArgsOperandSize) (src : GprMemImm) (dst : Gpr)
      (opcode : CmpOpcode)
  | TrapIf (cc : CC) (trap_code : TrapCode)
  | SignExtendData (size : ArgsOperandSize) (src : Gpr) (dst : WritableGpr)
  | AluRmiR (size : ArgsOperandSize) (op : AluRmiROpcode) (src1 : Gpr)
      (src2 : GprMemImm) (dst : WritableGpr)
  | Div (sign : DivSignedness) (size : ArgsOperandSize) (trap : TrapCode)
      (divisor : GprMem) (dividend_lo : Gpr) (dividend_hi : Gpr)
      (dst_quotient : WritableGpr) (dst_remainder : WritableGpr)
  | CheckedSRemSeq (size : ArgsOperandSize) (divisor : Gpr)
      (dividend_lo : Gpr) (dividend_hi : Gpr) (dst_quotient : WritableGpr)
      (dst_remainder : WritableGpr)
  | Imm (dst_size : ArgsOperandSize) (simm64 : Nat) (dst : WritableGpr)
  | Setcc (cc : CC) (dst : WritableGpr)
  | MovRR (src : Gpr) (dst : WritableGpr) (size : ArgsOperandSize)
  | MovRM (size : ArgsOperandSize) (src : Gpr) (dst : SyntheticAmode)
  | MovImmM (size : ArgsOperandSize) (simm32 : Int) (dst : SyntheticAmode)
  | Mov64MR (src : SyntheticAmode) (dst : WritableGpr)
  | MovzxRmR (ext_mode : ExtMode) (src : GprMem) (dst : WritableGpr)
  | XmmUnaryRmRUnaligned (op : SseOpcode) (src : XmmMem)
      (dst : WritableXmm)
  | XmmMovRM (op : SseOpcode) (src : Xmm) (dst : SyntheticAmode)
  | XmmRmR (op : SseOpcode) (src1 : Xmm) (src2 : Xmm) (dst : WritableXmm)
  | ShiftR (size : ArgsOperandSize) (kind : CraneliftShiftKind) (src : Gpr)
      (num_bits : Imm8Gpr) (dst : WritableGpr)
  | Cmove (size : ArgsOperandSize) (cc : CC) (consequent : Gpr)
      (alternative : Gpr) (dst : WritableGpr)
deriving DecidableEq, Repr

/-- Modelled from the spec: the machine instruction buffer, append-only,
recording emitted instructions in call order together with the pool data
registrations performed through `register_constant`. -/
structure MachBuffer where
  insts : List Inst
  registered : List (Nat × List Nat)
deriving DecidableEq, Repr

def MachBuffer.register_constant (b : MachBuffer) (constant : Nat)
    (data : List Nat) : MachBuffer :=
  { b with registered := b.registered ++ [(constant, data)] }

/-- The assembler state of `Assembler` in `asm.rs`: the instruction buffer,
the constant pool and the vcode constants (the emit-info/emit-state fields
carry no information the emission methods read). -/
structure Assembler where
  buffer : MachBuffer
  pool : ConstantPool
  constants : VCodeConstants
deriving DecidableEq, Repr

/-- The `Assembler::new`. -/
def Assembler.new : Assembler :=
  { buffer := ⟨[], []⟩, pool := ConstantPool.new, constants := ⟨[]⟩ }

/-- The `Assembler::add_constant`: insert into the pool (deduplicating by
content) and wrap the handle as a constant address. -/
def Assembler.add_constant (asm : Assembler) (constant : List Nat) :
    Assembler × Address :=
  let (pool, handle) := asm.pool.insert constant
  ({ asm with pool := pool }, Address.constant handle)

/-- The `Assembler::emit`: append one instruction to the machine buffer. -/
def Assembler.emit (asm : Assembler) (inst : Inst) : Assembler :=
  { asm with buffer := { asm.buffer with insts := asm.buffer.insts ++ [inst] } }

/-- The `Assembler::to_synthetic_amode`: a base-plus-offset address becomes a
real amode; a constant address looks up the pool data, registers it with
the buffer if this pool datum is not yet used, and returns a
constant-offset amode. -/
def Assembler.to_synthetic_amode (asm : Assembler) (addr : Address) :
    SyntheticAmode × Assembler :=
  match addr with
  | Address.Offset base offset => (SyntheticAmode.real base offset, asm)
  | Address.Const c =>
    let constant_data := asm.pool.get c
    let needs_registration := ¬ asm.constants.pool_uses c
    let (constants, constant) := asm.constants.insert c
    let buffer :=
      if needs_registration then
        asm.buffer.register_constant constant constant_data
      else asm.buffer
    (SyntheticAmode.ConstantOffset constant,
     { asm with constants := constants, buffer := buffer })

/-- Lift the option returned by a checked operand conversion, mirroring the
`.expect`/`.unwrap` calls in `asm.rs` that panic on `None`. -/
def expectSome {α : Type} (msg : String) : Option α → Except String α
  | some a => Except.ok a
  | none => Except.error msg

/-- The `impl From<Reg> for Gpr`: `Gpr::new(reg).expect("valid gpr")`. -/
def Reg.toGpr (r : Reg) : Except String Gpr :=
  expectSome "valid gpr" (Gpr.new r)

/-- The `impl From<Reg> for WritableGpr`:
`WritableGpr::from_writable_reg(..).expect("valid writable gpr")`. -/
def Reg.toWritableGpr (r : Reg) : Except String WritableGpr :=
  expectSome "valid writable gpr" (WritableGpr.from_writable_reg r)

/-- The `impl From<Reg> for Xmm`: `Xmm::new(reg).expect("valid Xmm register")`. -/
def Reg.toXmm (r : Reg) : Except String Xmm :=
  expectSome "valid Xmm register" (Xmm.new r)

/-- The `impl From<Reg> for WritableXmm`:
`WritableXmm::from_writable_reg(..).expect("valid writable xmm")`. -/
def Reg.toWritableXmm (r : Reg) : Except String WritableXmm :=
  expectSome "valid writable xmm" (WritableXmm.from_writable_reg r)

/-- The `impl From<Reg> for GprMem`: `GprMem::new(reg.into()).expect("valid gpr")`. -/
def Reg.toGprMem (r : Reg) : Except String GprMem :=
  expectSome "valid gpr" (GprMem.new (RegMem.ofReg r))

/-- The `impl From<Reg> for GprMemImm`:
`GprMemImm::new(reg.into()).expect("valid gpr")`. -/
def Reg.toGprMemImm (r : Reg) : Except String GprMemImm :=
  expectSome "valid gpr" (GprMemImm.new (RegMemImm.reg r))

/-- The `impl From<Reg> for Imm8Gpr`:
`Imm8Gpr::new(Imm8Reg::Reg).expect("valid Imm8Gpr")`. -/
def Reg.toImm8Gpr (r : Reg) : Except String Imm8Gpr :=
  expectSome "valid Imm8Gpr" (Imm8Gpr.new (Imm8Reg.Reg r))

/-- The `Assembler::mov_rr`: register-to-register move. -/
def Assembler.mov_rr (asm : Assembler) (src dst : Reg) (size : OperandSize) :
    Except String Assembler := do
  let s ← src.toGpr
  let d ← dst.toWritableGpr
  let sz ← argsOperandSize_from size
  pure (asm.emit (Inst.MovRR s d sz))

/-- The `Assembler::mov_rm`: register-to-memory move; asserts the address is a
base-plus-offset address before resolving it. -/
def Assembler.mov_rm (asm : Assembler) (src : Reg) (addr : Address)
    (size : OperandSize) : Except String Assembler := do
  if addr.is_offset then do
    let (dstA, asm) := asm.to_synthetic_amode addr
    let sz ← argsOperandSize_from size
    let s ← src.toGpr
    pure (asm.emit (Inst.MovRM sz s dstA))
  else Except.error "assertion failed: addr.is_offset()"

/-- The `Assembler::mov_im`: immediate-to-memory move; asserts the address is a
base-plus-offset address before resolving it. -/
def Assembler.mov_im (asm : Assembler) (src : Int) (addr : Address)
    (size : OperandSize) : Except String Assembler := do
  if addr.is_offset then do
    let (dstA, asm) := asm.to_synthetic_amode addr
    let sz ← argsOperandSize_from size
    pure (asm.emit (Inst.MovImmM sz src dstA))
  else Except.error "assertion failed: addr.is_offset()"

/-- The `Assembler::mov_ir`: immediate-to-register move. -/
def Assembler.mov_ir (asm : Assembler) (imm : Nat) (dst : Reg)
    (size : OperandSize) : Except String Assembler := do
  let d ← dst.toWritableGpr
  let sz ← argsOperandSize_from size
  pure (asm.emit (Inst.Imm sz imm d))

/-- The `Assembler::mov_mr`: memory-to-register load; a full-width move for
`S64` and a 32-to-64-bit zero-extending `movzx` load for every other
size. -/
def Assembler.mov_mr (asm : Assembler) (addr : Address) (dst : Reg)
    (size : OperandSize) : Except String Assembler := do
  let (src, asm) := asm.to_synthetic_amode addr
  if size = OperandSize.S64 then do
    let d ← dst.toWritableGpr
    pure (asm.emit (Inst.Mov64MR src d))
  else do
    let reg_mem := RegMem.mem src
    let srcOp ← expectSome "valid memory address" (GprMem.new reg_mem)
    let d ← dst.toWritableGpr
    pure (asm.emit (Inst.MovzxRmR ExtMode.LQ srcOp d))

/-- The `Assembler::cmov`: integer register conditional move. -/
def Assembler.cmov (asm : Assembler) (src dst : Reg) (cc : IntCmpKind)
    (size : OperandSize) : Except String Assembler := do
  let sz ← argsOperandSize_from size
  let consequent ← src.toGpr
  let alternative ← dst.toGpr
  let d ← dst.toWritableGpr
  pure (asm.emit (Inst.Cmove sz (cc_from_IntCmpKind cc) consequent alternative d))

/-- The `Assembler::xmm_mov_rr`: float register-to-register move, selecting the
opcode by size (including the full-width `movdqa` for `S128`). -/
def Assembler.xmm_mov_rr (asm : Assembler) (src dst : Reg)
    (size : OperandSize) : Except String Assembler := do
  let op := match size with
    | OperandSize.S32 => SseOpcode.Movaps
    | OperandSize.S64 => SseOpcode.Movapd
    | OperandSize.S128 => SseOpcode.Movdqa
  let srcOp ← expectSome "valid xmm unaligned" (XmmMem.new (RegMem.ofReg src))
  let d ← dst.toWritableXmm
  pure (asm.emit (Inst.XmmUnaryRmRUnaligned op srcOp d))

/-- The `Assembler::xmm_mov_mr`: float load; asserts the destination is a
float-class register. -/
def Assembler.xmm_mov_mr (asm : Assembler) (src : Address) (dst : Reg)
    (size : OperandSize) : Except String Assembler := do
  if dst.is_float then do
    let op := match size with
      | OperandSize.S32 => SseOpcode.Movss
      | OperandSize.S64 => SseOpcode.Movsd
      | OperandSize.S128 => SseOpcode.Movdqu
    let (srcA, asm) := asm.to_synthetic_amode src
    let srcOp ← expectSome "valid xmm unaligned" (XmmMem.new (RegMem.mem srcA))
    let d ← dst.toWritableXmm
    pure (asm.emit (Inst.XmmUnaryRmRUnaligned op srcOp d))
  else Except.error "assertion failed: dst.is_float()"

/-- The `Assembler::xmm_mov_rm`: float store; asserts the source is a
float-class register. -/
def Assembler.xmm_mov_rm (asm : Assembler) (src : Reg) (dst : Address)
    (size : OperandSize) : Except String Assembler := do
  if src.is_float then do
    let op := match size with
      | OperandSize.S32 => SseOpcode.Movss
      | OperandSize.S64 => SseOpcode.Movsd
      | OperandSize.S128 => SseOpcode.Movdqu
    let (dstA, asm) := asm.to_synthetic_amode dst
    let s ← src.toXmm
    pure (asm.emit (Inst.XmmMovRM op s dstA))
  else Except.error "assertion failed: src.is_float()"

/-- The shared shape of the two-register ALU emissions in `asm.rs`
(`add_rr`, `sub_rr`, `and_rr`, `or_rr`, `xor_rr`, `mul_rr`): destination
read as first source, source as second, destination written in place. -/
def Assembler.alu_rr (asm : Assembler) (op : AluRmiROpcode) (src dst : Reg)
    (size : OperandSize) : Except String Assembler := do
  let sz ← argsOperandSize_from size
  let s1 ← dst.toGpr
  let s2 ← src.toGprMemImm
  let d ← dst.toWritableGpr
  pure (asm.emit (Inst.AluRmiR sz op s1 s2 d))

/-- The `Assembler::add_rr`. -/
def Assembler.add_rr (asm : Assembler) (src dst : Reg) (size : OperandSize) :
    Except String Assembler :=
  asm.alu_rr AluRmiROpcode.Add src dst size

/-- The `Assembler::sub_rr`. -/
def Assembler.sub_rr (asm : Assembler) (src dst : Reg) (size : OperandSize) :
    Except String Assembler :=
  asm.alu_rr AluRmiROpcode.Sub src dst size

/-- The `Assembler::and_rr`. -/
def Assembler.and_rr (asm : Assembler) (src dst : Reg) (size : OperandSize) :
    Except String Assembler :=
  asm.alu_rr AluRmiROpcode.And src dst size

/-- The `Assembler::or_rr`. -/
def Assembler.or_rr (asm : Assembler) (src dst : Reg) (size : OperandSize) :
    Except String Assembler :=
  asm.alu_rr AluRmiROpcode.Or src dst size

/-- The `Assembler::xor_rr`. -/
def Assembler.xor_rr (asm : Assembler) (src dst : Reg) (size : OperandSize) :
    Except String Assembler :=
  asm.alu_rr AluRmiROpcode.Xor src dst size

/-- The `Assembler::mul_rr`. -/
def Assembler.mul_rr (asm : Assembler) (src dst : Reg) (size : OperandSize) :
    Except String Assembler :=
  asm.alu_rr AluRmiROpcode.Mul src dst size

/-- The `Assembler::cmp_rr`. -/
def Assembler.cmp_rr (asm : Assembler) (src dst : Reg) (size : OperandSize) :
    Except String Assembler := do
  let sz ← argsOperandSize_from size
  let s ← src.toGprMemImm
  let d ← dst.toGpr
  pure (asm.emit (Inst.CmpRmiR sz s d CmpOpcode.Cmp))

/-- The `Assembler::test_rr`: flag-only bitwise test. -/
def Assembler.test_rr (asm : Assembler) (src dst : Reg) (size : OperandSize) :
    Except String Assembler := do
  let sz ← argsOperandSize_from size
  let s ← src.toGprMemImm
  let d ← dst.toGpr
  pure (asm.emit (Inst.CmpRmiR sz s d CmpOpcode.Test))

/-- The `Assembler::shift_rr`: shift with a register-held count. -/
def Assembler.shift_rr (asm : Assembler) (src dst : Reg) (kind : ShiftKind)
    (size : OperandSize) : Except String Assembler := do
  let sz ← argsOperandSize_from size
  let s ← dst.toGpr
  let nb ← src.toImm8Gpr
  let d ← dst.toWritableGpr
  pure (asm.emit (Inst.ShiftR sz (craneliftShiftKind_from kind) s nb d))

/-- The shared shape of the bitwise-float emissions in `asm.rs`
(`xmm_and_rr`, `xmm_andn_rr`, `xmm_or_rr`, `xmm_xor_rr`): the size match
hits `unreachable!()` on `S128`. -/
def Assembler.xmm_bitwise_rr (asm : Assembler) (op32 op64 : SseOpcode)
    (src dst : Reg) (size : OperandSize) : Except String Assembler := do
  let op ← match size with
    | OperandSize.S32 => Except.ok op32
    | OperandSize.S64 => Except.ok op64
    | OperandSize.S128 => Except.error "unreachable"
  let s1 ← dst.toXmm
  let s2 ← src.toXmm
  let d ← dst.toWritableXmm
  pure (asm.emit (Inst.XmmRmR op s1 s2 d))

/-- The `Assembler::xmm_and_rr`. -/
def Assembler.xmm_and_rr (asm : Assembler) (src dst : Reg)
    (size : OperandSize) : Except String Assembler :=
  asm.xmm_bitwise_rr SseOpcode.Andps SseOpcode.Andpd src dst size

/-- The `Assembler::xmm_andn_rr`. -/
def Assembler.xmm_andn_rr (asm : Assembler) (src dst : Reg)
    (size : OperandSize) : Except String Assembler :=
  asm.xmm_bitwise_rr SseOpcode.Andnps SseOpcode.Andnpd src dst size

/-- The `Assembler::xmm_or_rr`. -/
def Assembler.xmm_or_rr (asm : Assembler) (src dst : Reg)
    (size : OperandSize) : Except String Assembler :=
  asm.xmm_bitwise_rr SseOpcode.Orps SseOpcode.Orpd src dst size

/-- The `Assembler::xmm_xor_rr`. -/
def Assembler.xmm_xor_rr (asm : Assembler) (src dst : Reg)
    (size : OperandSize) : Except String Assembler :=
  asm.xmm_bitwise_rr SseOpcode.Xorps SseOpcode.Xorpd src dst size

/-- The `Assembler::div`: signed division first compares the divisor against
the immediate `0`, conditionally traps on `Z` with
`IntegerDivisionByZero`, sign-extends the low dividend register into the
high one, and tags the divide with `IntegerOverflow`; unsigned division
zeroes the high dividend register by xoring it with itself and tags the
divide with `IntegerDivisionByZero`. -/
def Assembler.div (asm : Assembler) (divisor : Reg) (dst : Reg × Reg)
    (kind : DivKind) (size : OperandSize) : Except String Assembler := do
  let (lo, hi) := dst
  let sz ← argsOperandSize_from size
  let (asm, trap) ← match kind with
    | DivKind.Signed => do
      let srcOp ← expectSome "unwrap" (GprMemImm.new (RegMemImm.imm 0))
      let cmpDst ← divisor.toGpr
      let asm := asm.emit (Inst.CmpRmiR sz srcOp cmpDst CmpOpcode.Cmp)
      let asm := asm.emit (Inst.TrapIf CC.Z TrapCode.IntegerDivisionByZero)
      let sextSrc ← lo.toGpr
      let sextDst ← hi.toWritableGpr
      let asm := asm.emit (Inst.SignExtendData sz sextSrc sextDst)
      pure (asm, TrapCode.IntegerOverflow)
    | DivKind.Unsigned => do
      let s1 ← hi.toGpr
      let s2 ← hi.toGprMemImm
      let d ← hi.toWritableGpr
      let asm := asm.emit (Inst.AluRmiR sz AluRmiROpcode.Xor s1 s2 d)
      pure (asm, TrapCode.IntegerDivisionByZero)
  let divisorOp ← expectSome "unwrap" (GprMem.new (RegMem.ofReg divisor))
  let loG ← lo.toGpr
  let hiG ← hi.toGpr
  let loW ← lo.toWritableGpr
  let hiW ← hi.toWritableGpr
  pure (asm.emit
    (Inst.Div (divSignedness_from kind) sz trap divisorOp loG hiG loW hiW))

/-- The `Assembler::rem`: signed remainder sign-extends the low dividend
register into the high one and emits the guarded `CheckedSRemSeq`
pseudo-instruction; unsigned remainder zeroes the high dividend register by
a self-xor and emits an unsigned divide tagged `IntegerDivisionByZero`. -/
def Assembler.rem (asm : Assembler) (divisor : Reg) (dst : Reg × Reg)
    (kind : RemKind) (size : OperandSize) : Except String Assembler := do
  let (lo, hi) := dst
  match kind with
  | RemKind.Signed => do
    let sz ← argsOperandSize_from size
    let sextSrc ← lo.toGpr
    let sextDst ← hi.toWritableGpr
    let asm := asm.emit (Inst.SignExtendData sz sextSrc sextDst)
    let divG ← divisor.toGpr
    let loG ← lo.toGpr
    let hiG ← hi.toGpr
    let loW ← lo.toWritableGpr
    let hiW ← hi.toWritableGpr
    pure (asm.emit (Inst.CheckedSRemSeq sz divG loG hiG loW hiW))
  | RemKind.Unsigned => do
    let sz ← argsOperandSize_from size
    let s1 ← hi.toGpr
    let s2 ← hi.toGprMemImm
    let d ← hi.toWritableGpr
    let asm := asm.emit (Inst.AluRmiR sz AluRmiROpcode.Xor s1 s2 d)
    let divisorOp ← expectSome "unwrap" (GprMem.new (RegMem.ofReg divisor))
    let loG ← lo.toGpr
    let hiG ← hi.toGpr
    let loW ← lo.toWritableGpr
    let hiW ← hi.toWritableGpr
    pure (asm.emit
      (Inst.Div DivSignedness.Unsigned sz TrapCode.IntegerDivisionByZero
        divisorOp loG hiG loW hiW))

/-- The `Assembler::setcc_impl`: clear the destination with an immediate load
of zero (not an xor, which would clobber the flags), then emit the
set-on-condition instruction. -/
def Assembler.setcc_impl (asm : Assembler) (cc : CC) (dst : Reg) :
    Except String Assembler := do
  let d ← dst.toWritableGpr
  let asm := asm.emit (Inst.Imm ArgsOperandSize.Size32 0 d)
  pure (asm.emit (Inst.Setcc cc d))

/-- The `Assembler::setcc`. -/
def Assembler.setcc (asm : Assembler) (kind : IntCmpKind) (dst : Reg) :
    Except String Assembler :=
  asm.setcc_impl (cc_from_IntCmpKind kind) dst

/-- The `Assembler::setp`. -/
def Assembler.setp (asm : Assembler) (dst : Reg) : Except String Assembler :=
  asm.setcc_impl CC.P dst

/-- The `Assembler::setnp`. -/
def Assembler.setnp (asm : Assembler) (dst : Reg) : Except String Assembler :=
  asm.setcc_impl CC.NP dst

/-- The trap codes carried by an instruction: `TrapIf` and `Div` are the
only instructions `asm.rs` tags with a trap code. -/
def Inst.trapCodes : Inst → List TrapCode
  | Inst.TrapIf _ code => [code]
  | Inst.Div _ _ trap _ _ _ _ _ => [trap]
  | _ => []

/-- Whether an instruction is a flag-setting compare. -/
def Inst.isCmp : Inst → Bool
  | Inst.CmpRmiR _ _ _ _ => true
  | _ => false

/-- Whether an instruction is an immediate-load into a register. -/
def Inst.isImmLoad : Inst → Bool
  | Inst.Imm _ _ _ => true
  | _ => false

/-- Concrete general-purpose registers used to instantiate theorems. -/
def rax : Reg := ⟨0, RegClass.int⟩

def rcx : Reg := ⟨1, RegClass.int⟩

def rdx : Reg := ⟨2, RegClass.int⟩

/-- Concrete float-class registers used to instantiate theorems. -/
def xmm0 : Reg := ⟨0, RegClass.float⟩

def xmm1 : Reg := ⟨1, RegClass.float⟩

/-- C4: the conversion from abstract integer comparison kinds to native
condition codes is total over the ten kinds, mapping them to
`Z, NZ, L, B, NLE, NBE, LE, BE, NL, NB` respectively, and is injective: no
two distinct kinds share a native condition code. -/
theorem cc_from_IntCmpKind_total_injective :
    ([IntCmpKind.Eq, IntCmpKind.Ne, IntCmpKind.LtS, IntCmpKind.LtU,
      IntCmpKind.GtS, IntCmpKind.GtU, IntCmpKind.LeS, IntCmpKind.LeU,
      IntCmpKind.GeS, IntCmpKind.GeU].map cc_from_IntCmpKind =
     [CC.Z, CC.NZ, CC.L, CC.B, CC.NLE, CC.NBE, CC.LE, CC.BE, CC.NL, CC.NB]) ∧
    ∀ k₁ k₂ : IntCmpKind,
      cc_from_IntCmpKind k₁ = cc_from_IntCmpKind k₂ → k₁ = k₂ := by
  exact ⟨rfl, by decide⟩

/-- Witness for C4: the injectivity implication applied at a concrete
pair of kinds. -/
theorem cc_from_IntCmpKind_total_injective_witness :
    IntCmpKind.LtS = IntCmpKind.LtS :=
  cc_from_IntCmpKind_total_injective.2 IntCmpKind.LtS IntCmpKind.LtS rfl

/-- C10: `mov_rm` and `mov_im` reject a constant-pool address by a failed
assertion before resolving the address or emitting anything; the returned
error carries no new assembler state, so a pool entry is never a store
destination. -/
theorem mov_store_rejects_const_address (asm : Assembler) (src : Reg)
    (imm : Int) (handle : Nat) (size : OperandSize) :
    asm.mov_rm src (Address.Const handle) size =
      Except.error "assertion failed: addr.is_offset()" ∧
    asm.mov_im imm (Address.Const handle) size =
      Except.error "assertion failed: addr.is_offset()" :=
  ⟨rfl, rfl⟩

/-- Helper: the exact result of `Assembler::div` with `DivKind::Signed` on
class-correct registers and a convertible size. -/
theorem div_signed_eq (asm : Assembler) (divisor lo hi : Reg)
    (size : OperandSize) (sz : ArgsOperandSize)
    (hdiv : divisor.cls = RegClass.int) (hlo : lo.cls = RegClass.int)
    (hhi : hi.cls = RegClass.int)
    (hsz : argsOperandSize_from size = Except.ok sz) :
    asm.div divisor (lo, hi) DivKind.Signed size =
      Except.ok { asm with buffer := { asm.buffer with insts :=
        asm.buffer.insts ++
        [Inst.CmpRmiR sz (GprMemImm.Imm 0) ⟨divisor⟩ CmpOpcode.Cmp,
         Inst.TrapIf CC.Z TrapCode.IntegerDivisionByZero,
         Inst.SignExtendData sz ⟨lo⟩ ⟨hi⟩,
         Inst.Div DivSignedness.Signed sz TrapCode.IntegerOverflow
           (GprMem.Reg ⟨divisor⟩) ⟨lo⟩ ⟨hi⟩ ⟨lo⟩ ⟨hi⟩] } } := by
  simp [Assembler.div, hsz, expectSome, GprMemImm.new, Reg.toGpr,
    Reg.toWritableGpr, Reg.toGprMemImm, Gpr.new, WritableGpr.from_writable_reg,
    GprMem.new, RegMem.ofReg, hdiv, hlo, hhi, divSignedness_from,
    Assembler.emit, bind, Except.bind, pure, Except.pure]

/-- Helper: the exact result of `Assembler::rem` with `RemKind::Signed` on
class-correct registers and a convertible size. -/
theorem rem_signed_eq (asm : Assembler) (divisor lo hi : Reg)
    (size : OperandSize) (sz : ArgsOperandSize)
    (hdiv : divisor.cls = RegClass.int) (hlo : lo.cls = RegClass.int)
    (hhi : hi.cls = RegClass.int)
    (hsz : argsOperandSize_from size = Except.ok sz) :
    asm.rem divisor (lo, hi) RemKind.Signed size =
      Except.ok { asm with buffer := { asm.buffer with insts :=
        asm.buffer.insts ++
        [Inst.SignExtendData sz ⟨lo⟩ ⟨hi⟩,
         Inst.CheckedSRemSeq sz ⟨divisor⟩ ⟨lo⟩ ⟨hi⟩ ⟨lo⟩ ⟨hi⟩] } } := by
  simp [Assembler.rem, hsz, expectSome, Reg.toGpr, Reg.toWritableGpr,
    Gpr.new, WritableGpr.from_writable_reg, hdiv, hlo, hhi,
    Assembler.emit, bind, Except.bind, pure, Except.pure]

/-- Helper: the exact result of `Assembler::div` with `DivKind::Unsigned`
on class-correct registers and a convertible size. -/
theorem div_unsigned_eq (asm : Assembler) (divisor lo hi : Reg)
    (size : OperandSize) (sz : ArgsOperandSize)
    (hdiv : divisor.cls = RegClass.int) (hlo : lo.cls = RegClass.int)
    (hhi : hi.cls = RegClass.int)
    (hsz : argsOperandSize_from size = Except.ok sz) :
    asm.div divisor (lo, hi) DivKind.Unsigned size =
      Except.ok { asm with buffer := { asm.buffer with insts :=
        asm.buffer.insts ++
        [Inst.AluRmiR sz AluRmiROpcode.Xor ⟨hi⟩ (GprMemImm.Reg ⟨hi⟩) ⟨hi⟩,
         Inst.Div DivSignedness.Unsigned sz TrapCode.IntegerDivisionByZero
           (GprMem.Reg ⟨divisor⟩) ⟨lo⟩ ⟨hi⟩ ⟨lo⟩ ⟨hi⟩] } } := by
  simp [Assembler.div, hsz, expectSome, GprMemImm.new, Reg.toGpr,
    Reg.toWritableGpr, Reg.toGprMemImm, Gpr.new, WritableGpr.from_writable_reg,
    GprMem.new, RegMem.ofReg, RegMemImm.reg, hdiv, hlo, hhi,
    divSignedness_from, Assembler.emit, bind, Except.bind, pure, Except.pure]

/-- Helper: the exact result of `Assembler::rem` with `RemKind::Unsigned`
on class-correct registers and a convertible size. -/
theorem rem_unsigned_eq (asm : Assembler) (divisor lo hi : Reg)
    (size : OperandSize) (sz : ArgsOperandSize)
    (hdiv : divisor.cls = RegClass.int) (hlo : lo.cls = RegClass.int)
    (hhi : hi.cls = RegClass.int)
    (hsz : argsOperandSize_from size = Except.ok sz) :
    asm.rem divisor (lo, hi) RemKind.Unsigned size =
      Except.ok { asm with buffer := { asm.buffer with insts :=
        asm.buffer.insts ++
        [Inst.AluRmiR sz AluRmiROpcode.Xor ⟨hi⟩ (GprMemImm.Reg ⟨hi⟩) ⟨hi⟩,
         Inst.Div DivSignedness.Unsigned sz TrapCode.IntegerDivisionByZero
           (GprMem.Reg ⟨divisor⟩) ⟨lo⟩ ⟨hi⟩ ⟨lo⟩ ⟨hi⟩] } } := by
  simp [Assembler.rem, hsz, expectSome, GprMemImm.new, Reg.toGpr,
    Reg.toWritableGpr, Reg.toGprMemImm, Gpr.new, WritableGpr.from_writable_reg,
    GprMem.new, RegMem.ofReg, hdiv, hlo, hhi,
    Assembler.emit, bind, Except.bind, pure, Except.pure]

/-- C1: for every signed division with general-purpose divisor and
destination pair and a size accepted by the operand-size conversion, the
emitted sequence is exactly a compare of the divisor against the immediate
`0`, a conditional trap on the zero condition with
`IntegerDivisionByZero`, a sign-extension of the low dividend register
into the high one, and the divide tagged with `IntegerOverflow`; the
divide-by-zero trap therefore precedes the divide in emission order. -/
theorem div_signed_sequence (asm : Assembler) (divisor lo hi : Reg)
    (size : OperandSize) (sz : ArgsOperandSize)
    (hdiv : divisor.cls = RegClass.int) (hlo : lo.cls = RegClass.int)
    (hhi : hi.cls = RegClass.int)
    (hsz : argsOperandSize_from size = Except.ok sz) :
    ∃ asm', asm.div divisor (lo, hi) DivKind.Signed size = Except.ok asm' ∧
      asm'.buffer.insts = asm.buffer.insts ++
        [Inst.CmpRmiR sz (GprMemImm.Imm 0) ⟨divisor⟩ CmpOpcode.Cmp,
         Inst.TrapIf CC.Z TrapCode.IntegerDivisionByZero,
         Inst.SignExtendData sz ⟨lo⟩ ⟨hi⟩,
         Inst.Div DivSignedness.Signed sz TrapCode.IntegerOverflow
           (GprMem.Reg ⟨divisor⟩) ⟨lo⟩ ⟨hi⟩ ⟨lo⟩ ⟨hi⟩] :=
  ⟨_, div_signed_eq asm divisor lo hi size sz hdiv hlo hhi hsz, rfl⟩

/-- Witness for C1: the signed-division sequence evaluated on a fresh
assembler at concrete registers and the 32-bit size. -/
theorem div_signed_sequence_witness :
    ∃ asm', Assembler.new.div rcx (rax, rdx) DivKind.Signed OperandSize.S32 =
        Except.ok asm' ∧
      asm'.buffer.insts = [] ++
        [Inst.CmpRmiR ArgsOperandSize.Size32 (GprMemImm.Imm 0) ⟨rcx⟩
           CmpOpcode.Cmp,
         Inst.TrapIf CC.Z TrapCode.IntegerDivisionByZero,
         Inst.SignExtendData ArgsOperandSize.Size32 ⟨rax⟩ ⟨rdx⟩,
         Inst.Div DivSignedness.Signed ArgsOperandSize.Size32
           TrapCode.IntegerOverflow (GprMem.Reg ⟨rcx⟩) ⟨rax⟩ ⟨rdx⟩ ⟨rax⟩
           ⟨rdx⟩] :=
  div_signed_sequence Assembler.new rcx rax rdx OperandSize.S32
    ArgsOperandSize.Size32 rfl rfl rfl rfl

/-- C2: for every signed remainder with general-purpose divisor and
destination pair and a convertible size, the emitted sequence is exactly a
sign-extension of the low dividend register into the high one followed by
the guarded `CheckedSRemSeq` pseudo-instruction, and no instruction of
that sequence carries the `IntegerOverflow` trap code — in contrast to
signed division of the same operands, which emits a divide tagged
`IntegerOverflow`. -/
theorem rem_signed_no_overflow_trap (asm : Assembler) (divisor lo hi : Reg)
    (size : OperandSize) (sz : ArgsOperandSize)
    (hdiv : divisor.cls = RegClass.int) (hlo : lo.cls = RegClass.int)
    (hhi : hi.cls = RegClass.int)
    (hsz : argsOperandSize_from size = Except.ok sz) :
    (∃ asm', asm.rem divisor (lo, hi) RemKind.Signed size = Except.ok asm' ∧
      asm'.buffer.insts = asm.buffer.insts ++
        [Inst.SignExtendData sz ⟨lo⟩ ⟨hi⟩,
         Inst.CheckedSRemSeq sz ⟨divisor⟩ ⟨lo⟩ ⟨hi⟩ ⟨lo⟩ ⟨hi⟩] ∧
      ∀ i ∈ [Inst.SignExtendData sz (⟨lo⟩ : Gpr) (⟨hi⟩ : WritableGpr),
             Inst.CheckedSRemSeq sz ⟨divisor⟩ ⟨lo⟩ ⟨hi⟩ ⟨lo⟩ ⟨hi⟩],
        TrapCode.IntegerOverflow ∉ i.trapCodes) ∧
    ∃ asmd, asm.div divisor (lo, hi) DivKind.Signed size = Except.ok asmd ∧
      asmd.buffer.insts = asm.buffer.insts ++
        [Inst.CmpRmiR sz (GprMemImm.Imm 0) ⟨divisor⟩ CmpOpcode.Cmp,
         Inst.TrapIf CC.Z TrapCode.IntegerDivisionByZero,
         Inst.SignExtendData sz ⟨lo⟩ ⟨hi⟩,
         Inst.Div DivSignedness.Signed sz TrapCode.IntegerOverflow
           (GprMem.Reg ⟨divisor⟩) ⟨lo⟩ ⟨hi⟩ ⟨lo⟩ ⟨hi⟩] ∧
      TrapCode.IntegerOverflow ∈
        (Inst.Div DivSignedness.Signed sz TrapCode.IntegerOverflow
          (GprMem.Reg ⟨divisor⟩) ⟨lo⟩ ⟨hi⟩ ⟨lo⟩ ⟨hi⟩).trapCodes := by
  refine ⟨⟨_, rem_signed_eq asm divisor lo hi size sz hdiv hlo hhi hsz,
    rfl, ?_⟩, _, div_signed_eq asm divisor lo hi size sz hdiv hlo hhi hsz,
    rfl, by simp [Inst.trapCodes]⟩
  intro i hmem
  fin_cases hmem <;> simp [Inst.trapCodes]

/-- Witness for C2: signed remainder and signed division evaluated on a
fresh assembler at concrete registers and the 32-bit size. -/
theorem rem_signed_no_overflow_trap_witness :
    (∃ asm', Assembler.new.rem rcx (rax, rdx) RemKind.Signed OperandSize.S32 =
        Except.ok asm' ∧
      asm'.buffer.insts = [] ++
        [Inst.SignExtendData ArgsOperandSize.Size32 ⟨rax⟩ ⟨rdx⟩,
         Inst.CheckedSRemSeq ArgsOperandSize.Size32 ⟨rcx⟩ ⟨rax⟩ ⟨rdx⟩ ⟨rax⟩
           ⟨rdx⟩] ∧
      ∀ i ∈ [Inst.SignExtendData ArgsOperandSize.Size32 (⟨rax⟩ : Gpr)
               (⟨rdx⟩ : WritableGpr),
             Inst.CheckedSRemSeq ArgsOperandSize.Size32 ⟨rcx⟩ ⟨rax⟩ ⟨rdx⟩
               ⟨rax⟩ ⟨rdx⟩],
        TrapCode.IntegerOverflow ∉ i.trapCodes) ∧
    ∃ asmd, Assembler.new.div rcx (rax, rdx) DivKind.Signed OperandSize.S32 =
        Except.ok asmd ∧
      asmd.buffer.insts = [] ++
        [Inst.CmpRmiR ArgsOperandSize.Size32 (GprMemImm.Imm 0) ⟨rcx⟩
           CmpOpcode.Cmp,
         Inst.TrapIf CC.Z TrapCode.IntegerDivisionByZero,
         Inst.SignExtendData ArgsOperandSize.Size32 ⟨rax⟩ ⟨rdx⟩,
         Inst.Div DivSignedness.Signed ArgsOperandSize.Size32
           TrapCode.IntegerOverflow (GprMem.Reg ⟨rcx⟩) ⟨rax⟩ ⟨rdx⟩ ⟨rax⟩
           ⟨rdx⟩] ∧
      TrapCode.IntegerOverflow ∈
        (Inst.Div DivSignedness.Signed ArgsOperandSize.Size32
          TrapCode.IntegerOverflow (GprMem.Reg ⟨rcx⟩) ⟨rax⟩ ⟨rdx⟩ ⟨rax⟩
          ⟨rdx⟩).trapCodes :=
  rem_signed_no_overflow_trap Assembler.new rcx rax rdx OperandSize.S32
    ArgsOperandSize.Size32 rfl rfl rfl rfl

/-- C3: for every unsigned division and unsigned remainder with
general-purpose operands and a convertible size, the emitted sequence is
exactly a self-xor of the high dividend register (its second operand is
the register itself, not an immediate) followed by the divide tagged only
with `IntegerDivisionByZero`; the sequence contains no compare, no
immediate-load and no instruction tagged `IntegerOverflow`. -/
theorem unsigned_div_rem_sequence (asm : Assembler) (divisor lo hi : Reg)
    (size : OperandSize) (sz : ArgsOperandSize)
    (hdiv : divisor.cls = RegClass.int) (hlo : lo.cls = RegClass.int)
    (hhi : hi.cls = RegClass.int)
    (hsz : argsOperandSize_from size = Except.ok sz) :
    (∃ asmd, asm.div divisor (lo, hi) DivKind.Unsigned size = Except.ok asmd ∧
      asmd.buffer.insts = asm.buffer.insts ++
        [Inst.AluRmiR sz AluRmiROpcode.Xor ⟨hi⟩ (GprMemImm.Reg ⟨hi⟩) ⟨hi⟩,
         Inst.Div DivSignedness.Unsigned sz TrapCode.IntegerDivisionByZero
           (GprMem.Reg ⟨divisor⟩) ⟨lo⟩ ⟨hi⟩ ⟨lo⟩ ⟨hi⟩]) ∧
    (∃ asmr, asm.rem divisor (lo, hi) RemKind.Unsigned size = Except.ok asmr ∧
      asmr.buffer.insts = asm.buffer.insts ++
        [Inst.AluRmiR sz AluRmiROpcode.Xor ⟨hi⟩ (GprMemImm.Reg ⟨hi⟩) ⟨hi⟩,
         Inst.Div DivSignedness.Unsigned sz TrapCode.IntegerDivisionByZero
           (GprMem.Reg ⟨divisor⟩) ⟨lo⟩ ⟨hi⟩ ⟨lo⟩ ⟨hi⟩]) ∧
    ∀ i ∈ [Inst.AluRmiR sz AluRmiROpcode.Xor ⟨hi⟩ (GprMemImm.Reg ⟨hi⟩) ⟨hi⟩,
           Inst.Div DivSignedness.Unsigned sz TrapCode.IntegerDivisionByZero
             (GprMem.Reg ⟨divisor⟩) ⟨lo⟩ ⟨hi⟩ ⟨lo⟩ ⟨hi⟩],
      i.isCmp = false ∧ i.isImmLoad = false ∧
      TrapCode.IntegerOverflow ∉ i.trapCodes := by
  refine ⟨⟨_, div_unsigned_eq asm divisor lo hi size sz hdiv hlo hhi hsz,
    rfl⟩, ⟨_, rem_unsigned_eq asm divisor lo hi size sz hdiv hlo hhi hsz,
    rfl⟩, ?_⟩
  intro i hmem
  fin_cases hmem <;> exact ⟨rfl, rfl, by simp [Inst.trapCodes]⟩

/-- Witness for C3: unsigned division and remainder evaluated on a fresh
assembler at concrete registers and the 64-bit size. -/
theorem unsigned_div_rem_sequence_witness :
    (∃ asmd, Assembler.new.div rcx (rax, rdx) DivKind.Unsigned
        OperandSize.S64 = Except.ok asmd ∧
      asmd.buffer.insts = [] ++
        [Inst.AluRmiR ArgsOperandSize.Size64 AluRmiROpcode.Xor ⟨rdx⟩
           (GprMemImm.Reg ⟨rdx⟩) ⟨rdx⟩,
         Inst.Div DivSignedness.Unsigned ArgsOperandSize.Size64
           TrapCode.IntegerDivisionByZero (GprMem.Reg ⟨rcx⟩) ⟨rax⟩ ⟨rdx⟩
           ⟨rax⟩ ⟨rdx⟩]) ∧
    (∃ asmr, Assembler.new.rem rcx (rax, rdx) RemKind.Unsigned
        OperandSize.S64 = Except.ok asmr ∧
      asmr.buffer.insts = [] ++
        [Inst.AluRmiR ArgsOperandSize.Size64 AluRmiROpcode.Xor ⟨rdx⟩
           (GprMemImm.Reg ⟨rdx⟩) ⟨rdx⟩,
         Inst.Div DivSignedness.Unsigned ArgsOperandSize.Size64
           TrapCode.IntegerDivisionByZero (GprMem.Reg ⟨rcx⟩) ⟨rax⟩ ⟨rdx⟩
           ⟨rax⟩ ⟨rdx⟩]) ∧
    ∀ i ∈ [Inst.AluRmiR ArgsOperandSize.Size64 AluRmiROpcode.Xor ⟨rdx⟩
             (GprMemImm.Reg ⟨rdx⟩) ⟨rdx⟩,
           Inst.Div DivSignedness.Unsigned ArgsOperandSize.Size64
             TrapCode.IntegerDivisionByZero (GprMem.Reg ⟨rcx⟩) ⟨rax⟩ ⟨rdx⟩
             ⟨rax⟩ ⟨rdx⟩],
      i.isCmp = false ∧ i.isImmLoad = false ∧
      TrapCode.IntegerOverflow ∉ i.trapCodes :=
  unsigned_div_rem_sequence Assembler.new rcx rax rdx OperandSize.S64
    ArgsOperandSize.Size64 rfl rfl rfl rfl

/-- C6: each `setcc`-family entry point emits exactly two instructions: an
immediate-load of `0` into the destination (32-bit immediate-load, not a
self-xor, so the flags are untouched) followed by the set-on-condition
instruction for the requested condition. -/
theorem setcc_family_sequence (asm : Assembler) (kind : IntCmpKind)
    (dst : Reg) (h : dst.cls = RegClass.int) :
    asm.setcc kind dst =
      Except.ok { asm with buffer := { asm.buffer with insts :=
        asm.buffer.insts ++
        [Inst.Imm ArgsOperandSize.Size32 0 ⟨dst⟩,
         Inst.Setcc (cc_from_IntCmpKind kind) ⟨dst⟩] } } ∧
    asm.setp dst =
      Except.ok { asm with buffer := { asm.buffer with insts :=
        asm.buffer.insts ++
        [Inst.Imm ArgsOperandSize.Size32 0 ⟨dst⟩,
         Inst.Setcc CC.P ⟨dst⟩] } } ∧
    asm.setnp dst =
      Except.ok { asm with buffer := { asm.buffer with insts :=
        asm.buffer.insts ++
        [Inst.Imm ArgsOperandSize.Size32 0 ⟨dst⟩,
         Inst.Setcc CC.NP ⟨dst⟩] } } ∧
    (Inst.Imm ArgsOperandSize.Size32 0 (⟨dst⟩ : WritableGpr)).isImmLoad =
      true := by
  refine ⟨?_, ?_, ?_, rfl⟩ <;>
    simp [Assembler.setcc, Assembler.setp, Assembler.setnp,
      Assembler.setcc_impl, Reg.toWritableGpr, WritableGpr.from_writable_reg,
      expectSome, h, Assembler.emit, bind, Except.bind, pure, Except.pure]

/-- Witness for C6: the `setcc`-family sequences evaluated on a fresh
assembler at a concrete register and condition. -/
theorem setcc_family_sequence_witness :
    Assembler.new.setcc IntCmpKind.Eq rax =
      Except.ok { Assembler.new with buffer := { Assembler.new.buffer with
        insts := Assembler.new.buffer.insts ++
        [Inst.Imm ArgsOperandSize.Size32 0 ⟨rax⟩,
         Inst.Setcc (cc_from_IntCmpKind IntCmpKind.Eq) ⟨rax⟩] } } :=
  (setcc_family_sequence Assembler.new IntCmpKind.Eq rax rfl).1

/-- C7: `mov_mr` at the 32-bit size (the only size strictly below the
native 64-bit register width) emits a single zero-extending `movzx` load
defining the full destination register, and at the 64-bit size a single
plain full-width load. -/
theorem mov_mr_zero_extends (asm : Assembler) (addr : Address) (dst : Reg)
    (am : SyntheticAmode) (asm1 : Assembler) (h : dst.cls = RegClass.int)
    (hres : asm.to_synthetic_amode addr = (am, asm1)) :
    asm.mov_mr addr dst OperandSize.S32 =
      Except.ok (asm1.emit (Inst.MovzxRmR ExtMode.LQ (GprMem.Mem am) ⟨dst⟩)) ∧
    asm.mov_mr addr dst OperandSize.S64 =
      Except.ok (asm1.emit (Inst.Mov64MR am ⟨dst⟩)) := by
  constructor <;>
    simp [Assembler.mov_mr, hres, RegMem.mem, GprMem.new, expectSome,
      Reg.toWritableGpr, WritableGpr.from_writable_reg, h,
      bind, Except.bind, pure, Except.pure]

/-- Witness for C7: both loads evaluated on a fresh assembler at a concrete
base-plus-offset address and register. -/
theorem mov_mr_zero_extends_witness :
    Assembler.new.mov_mr (Address.Offset rax 8) rcx OperandSize.S32 =
      Except.ok (Assembler.new.emit (Inst.MovzxRmR ExtMode.LQ
        (GprMem.Mem (SyntheticAmode.real rax 8)) ⟨rcx⟩)) ∧
    Assembler.new.mov_mr (Address.Offset rax 8) rcx OperandSize.S64 =
      Except.ok (Assembler.new.emit
        (Inst.Mov64MR (SyntheticAmode.real rax 8) ⟨rcx⟩)) :=
  mov_mr_zero_extends Assembler.new (Address.Offset rax 8) rcx
    (SyntheticAmode.real rax 8) Assembler.new rfl rfl

/-- C8: every floating-point move fails fast on a wrong-class register:
`xmm_mov_mr` when the destination is not float-class, `xmm_mov_rm` when
the source is not float-class, and `xmm_mov_rr` when either side is not
float-class; no such call returns an emitted instruction. -/
theorem xmm_mov_class_fail_fast (asm : Assembler) (src dst : Reg)
    (addr : Address) (size : OperandSize) :
    (dst.is_float = false →
      ∃ e, asm.xmm_mov_mr addr dst size = Except.error e) ∧
    (src.is_float = false →
      ∃ e, asm.xmm_mov_rm src addr size = Except.error e) ∧
    (src.is_float = false ∨ dst.is_float = false →
      ∃ e, asm.xmm_mov_rr src dst size = Except.error e) := by
  refine ⟨?_, ?_, ?_⟩
  · intro hf
    exact ⟨"assertion failed: dst.is_float()",
      by simp [Assembler.xmm_mov_mr, hf]⟩
  · intro hf
    exact ⟨"assertion failed: src.is_float()",
      by simp [Assembler.xmm_mov_rm, hf]⟩
  · intro hf
    by_cases hs : src.cls = RegClass.float
    · have hd : ¬ dst.cls = RegClass.float := by
        rcases hf with hf | hf
        · simp [Reg.is_float, hs] at hf
        · simpa [Reg.is_float] using hf
      exact ⟨"valid writable xmm", by simp [Assembler.xmm_mov_rr,
        XmmMem.new, RegMem.ofReg, expectSome, Reg.toWritableXmm,
        WritableXmm.from_writable_reg, hs, hd,
        bind, Except.bind, pure, Except.pure]⟩
    · exact ⟨"valid xmm unaligned", by simp [Assembler.xmm_mov_rr,
        XmmMem.new, RegMem.ofReg, expectSome, hs,
        bind, Except.bind, pure, Except.pure]⟩

/-- Witness for C8: all three checks applied at a general-purpose register
in the float position. -/
theorem xmm_mov_class_fail_fast_witness :
    ∃ e, Assembler.new.xmm_mov_mr (Address.Offset rax 8) rcx
      OperandSize.S32 = Except.error e :=
  (xmm_mov_class_fail_fast Assembler.new xmm0 rcx (Address.Offset rax 8)
    OperandSize.S32).1 rfl

/-- Counterexample to C9 as stated: `mov_mr` called with the 128-bit size
does not fail fast; it silently emits the 32-to-64-bit zero-extending
`movzx` load, because its size test only distinguishes `S64` from
everything else and never runs the general-purpose operand-size
conversion. -/
theorem mov_mr_s128_counterexample :
    Assembler.new.mov_mr (Address.Offset rax 8) rcx OperandSize.S128 =
      Except.ok { Assembler.new with buffer :=
        { insts := [Inst.MovzxRmR ExtMode.LQ
            (GprMem.Mem (SyntheticAmode.real rax 8)) ⟨rcx⟩],
          registered := [] } } := rfl

/-- C9 (amended): every listed operation except `mov_mr` fails fast on the
128-bit size — the integer ALU, compare, test, shift, register-move,
immediate-move and conditional-move operations fail in the
general-purpose operand-size conversion, and the four bitwise-float
operations fail in their own size match — while `mov_mr` at the 128-bit
size does not fail and instead emits the zero-extending 32-bit load. -/
theorem s128_fail_fast_except_mov_mr (asm : Assembler)
    (srcI dstI srcF dstF : Reg) (kind : ShiftKind) (cc : IntCmpKind)
    (imm : Nat) (addr : Address) (am : SyntheticAmode) (asm1 : Assembler)
    (h1 : srcI.cls = RegClass.int) (h2 : dstI.cls = RegClass.int)
    (h3 : srcF.cls = RegClass.float) (h4 : dstF.cls = RegClass.float)
    (hres : asm.to_synthetic_amode addr = (am, asm1)) :
    asm.add_rr srcI dstI OperandSize.S128 =
      Except.error "Invalid operand size" ∧
    asm.sub_rr srcI dstI OperandSize.S128 =
      Except.error "Invalid operand size" ∧
    asm.and_rr srcI dstI OperandSize.S128 =
      Except.error "Invalid operand size" ∧
    asm.or_rr srcI dstI OperandSize.S128 =
      Except.error "Invalid operand size" ∧
    asm.xor_rr srcI dstI OperandSize.S128 =
      Except.error "Invalid operand size" ∧
    asm.mul_rr srcI dstI OperandSize.S128 =
      Except.error "Invalid operand size" ∧
    asm.cmp_rr srcI dstI OperandSize.S128 =
      Except.error "Invalid operand size" ∧
    asm.test_rr srcI dstI OperandSize.S128 =
      Except.error "Invalid operand size" ∧
    asm.shift_rr srcI dstI kind OperandSize.S128 =
      Except.error "Invalid operand size" ∧
    asm.mov_rr srcI dstI OperandSize.S128 =
      Except.error "Invalid operand size" ∧
    asm.mov_ir imm dstI OperandSize.S128 =
      Except.error "Invalid operand size" ∧
    asm.cmov srcI dstI cc OperandSize.S128 =
      Except.error "Invalid operand size" ∧
    asm.xmm_and_rr srcF dstF OperandSize.S128 =
      Except.error "unreachable" ∧
    asm.xmm_andn_rr srcF dstF OperandSize.S128 =
      Except.error "unreachable" ∧
    asm.xmm_or_rr srcF dstF OperandSize.S128 =
      Except.error "unreachable" ∧
    asm.xmm_xor_rr srcF dstF OperandSize.S128 =
      Except.error "unreachable" ∧
    asm.mov_mr addr dstI OperandSize.S128 =
      Except.ok (asm1.emit (Inst.MovzxRmR ExtMode.LQ (GprMem.Mem am)
        ⟨dstI⟩)) := by
  refine ⟨?_, ?_, ?_, ?_, ?_, ?_, ?_, ?_, ?_, ?_, ?_, ?_, ?_, ?_, ?_, ?_,
    ?_⟩ <;>
    simp [Assembler.add_rr, Assembler.sub_rr, Assembler.and_rr,
      Assembler.or_rr, Assembler.xor_rr, Assembler.mul_rr, Assembler.alu_rr,
      Assembler.cmp_rr, Assembler.test_rr, Assembler.shift_rr,
      Assembler.mov_rr, Assembler.mov_ir, Assembler.cmov,
      Assembler.xmm_and_rr, Assembler.xmm_andn_rr, Assembler.xmm_or_rr,
      Assembler.xmm_xor_rr, Assembler.xmm_bitwise_rr, Assembler.mov_mr,
      argsOperandSize_from, expectSome, Reg.toGpr, Reg.toWritableGpr,
      Reg.toGprMemImm, Reg.toImm8Gpr, Gpr.new, GprMemImm.new, GprMem.new,
      Imm8Gpr.new, WritableGpr.from_writable_reg, RegMem.ofReg, RegMem.mem,
      RegMemImm.reg, hres, h1, h2, h3, h4,
      bind, Except.bind, pure, Except.pure]

/-- Witness for C9 (amended): the conjunction evaluated at concrete
registers, shift kind, condition, immediate and address. -/
theorem s128_fail_fast_except_mov_mr_witness :
    Assembler.new.add_rr rax rcx OperandSize.S128 =
      Except.error "Invalid operand size" ∧
    Assembler.new.mov_mr (Address.Offset rax 8) rcx OperandSize.S128 =
      Except.ok (Assembler.new.emit (Inst.MovzxRmR ExtMode.LQ
        (GprMem.Mem (SyntheticAmode.real rax 8)) ⟨rcx⟩)) := by
  have h := s128_fail_fast_except_mov_mr Assembler.new rax rcx xmm0 xmm1
    ShiftKind.Shl IntCmpKind.Eq 0 (Address.Offset rax 8)
    (SyntheticAmode.real rax 8) Assembler.new rfl rfl rfl rfl rfl
  exact ⟨h.1, h.2.2.2.2.2.2.2.2.2.2.2.2.2.2.2.2⟩

/-- The `findIndex` on a list extended with the sought element finds it at the
old length when it was absent before. -/
theorem findIndex_append_self {α : Type} [DecidableEq α] (l : List α)
    (a : α) (h : findIndex l a = none) :
    findIndex (l ++ [a]) a = some l.length := by
  induction l with
  | nil => simp [findIndex]
  | cons e rest ih =>
    by_cases he : e = a
    · simp [findIndex, he] at h
    · simp [findIndex, he] at h ⊢
      simp [ih h]

/-- C5: inserting byte-identical content into the constant pool twice via
`add_constant` yields the same handle, and resolving the same pool handle
through `to_synthetic_amode` a second time performs no buffer
registration, emits nothing and returns the same constant-offset operand
with the assembler state unchanged (so any number of further resolutions
behave identically). -/
theorem constant_pool_dedup_single_registration (asm : Assembler)
    (data : List Nat) (c : Nat) (am1 : SyntheticAmode) (asm1 : Assembler)
    (hres : asm.to_synthetic_amode (Address.Const c) = (am1, asm1)) :
    ((asm.add_constant data).1.add_constant data).2 =
      (asm.add_constant data).2 ∧
    asm1.to_synthetic_amode (Address.Const c) = (am1, asm1) := by
  constructor
  · unfold Assembler.add_constant ConstantPool.insert
    rcases hfind : findIndex asm.pool.entries data with _ | i
    · simp [hfind, findIndex_append_self _ _ hfind, Address.constant]
    · simp [hfind, Address.constant]
  · unfold Assembler.to_synthetic_amode at hres ⊢
    unfold VCodeConstants.pool_uses VCodeConstants.insert at hres ⊢
    rcases hfind : findIndex asm.constants.poolKeys c with _ | i
    · simp [hfind] at hres
      rcases hres with ⟨ham, hasm⟩
      subst ham
      subst hasm
      simp [findIndex_append_self _ _ hfind]
    · simp [hfind] at hres
      rcases hres with ⟨ham, hasm⟩
      subst ham
      subst hasm
      simp [hfind]

/-- Witness for C5: deduplication and single registration evaluated on a
fresh assembler holding one pool constant. -/
theorem constant_pool_dedup_single_registration_witness :
    (((⟨⟨[], []⟩, ⟨[[1, 2]]⟩, ⟨[]⟩⟩ :
        Assembler).add_constant [1, 2]).1.add_constant [1, 2]).2 =
      ((⟨⟨[], []⟩, ⟨[[1, 2]]⟩, ⟨[]⟩⟩ :
        Assembler).add_constant [1, 2]).2 ∧
    (⟨⟨[], [(0, [1, 2])]⟩, ⟨[[1, 2]]⟩, ⟨[0]⟩⟩ :
        Assembler).to_synthetic_amode (Address.Const 0) =
      (SyntheticAmode.ConstantOffset 0,
       (⟨⟨[], [(0, [1, 2])]⟩, ⟨[[1, 2]]⟩, ⟨[0]⟩⟩ : Assembler)) :=
  constant_pool_dedup_single_registration
    ⟨⟨[], []⟩, ⟨[[1, 2]]⟩, ⟨[]⟩⟩ [1, 2] 0
    (SyntheticAmode.ConstantOffset 0)
    ⟨⟨[], [(0, [1, 2])]⟩, ⟨[[1, 2]]⟩, ⟨[0]⟩⟩ rfl

end Winch
